import Mathlib

/-!
Shallow embedding of `turboseti_stream/doppler_finder.py`.

Covered: the search-geometry derivation done in `DopplerFinder.__init__`
(header map, data dictionary, padded time-step count), the drift-index
table resolution (lines 271-285), the `DataLoader` stateful adapter, and
the output-artifact handling at the start of `DopplerFinder._find_ET_common`.

Modelling conventions: Python floats are modelled over `ℚ` (every formula
involved is exact field arithmetic on the inputs); Python ints are `ℕ`/`ℤ`;
the numpy 2-D drift-index table is a `List (List ℤ)`; the set of drift-index
table files shipped with turbo_seti is an environment `TableEnv` mapping the
key `k = log2(tsteps)` to the table's contents when the file exists.
-/

namespace TurbosetiStream

/-- Embedding of `doppler_finder.py` line 215:
`tsteps = int(math.pow(2, math.ceil(np.log2(math.floor(n_ints_in_file)))))`,
i.e. `2 ^ ⌈log₂ n⌉` for an integer `n ≥ 1` (`Nat.clog 2` is `⌈log₂ ·⌉`). -/
def tsteps (n_ints_in_file : ℕ) : ℕ := 2 ^ Nat.clog 2 n_ints_in_file

/-- The data-object header `Map` built at `doppler_finder.py` lines 220-233. -/
structure Header where
  coarse_chan : ℕ
  obs_length : ℚ
  DELTAF : ℚ
  NAXIS1 : ℕ
  FCNTR : ℚ
  baryv : ℚ
  SOURCE : String
  MJD : ℚ
  RA : ℚ
  DEC : ℚ
  DELTAT : ℚ
  max_drift_rate : ℚ
  deriving Repr, DecidableEq

/-- Embedding of the header construction (`doppler_finder.py` lines 220-233).
`NAXIS1` receives the local variable `fftlen`, which line 212 sets to
`n_fine_chans` (not the per-coarse-channel width). -/
def mkHeader (source_name : String) (src_raj src_dej tstart tsamp f_start f_stop : ℚ)
    (n_fine_chans n_ints_in_file : ℕ) (max_drift : ℚ) : Header :=
  { coarse_chan := 0
    obs_length := n_ints_in_file * tsamp
    DELTAF := (f_stop - f_start) / n_fine_chans
    NAXIS1 := n_fine_chans
    FCNTR := (f_stop + f_start) / 2
    baryv := 0
    SOURCE := source_name
    MJD := tstart
    RA := src_raj
    DEC := src_dej
    DELTAT := tsamp
    max_drift_rate := max_drift }

/-- The `data_dict` `Map` built at `doppler_finder.py` lines 256-267. -/
structure DataDict where
  f_start : ℚ
  f_stop : ℚ
  tsteps_valid : ℕ
  tsteps : ℕ
  tdwidth : ℕ
  fftlen : ℕ
  shoulder_size : ℕ
  drift_rate_resolution : ℚ
  coarse_chan : ℤ
  header : Header
  deriving Repr, DecidableEq

/-- Embedding of the `data_dict` construction (`doppler_finder.py` lines
212-215 and 256-267).  The Python locals are mirrored: `fftlen`
(line 212) is the full `n_fine_chans` and feeds `tdwidth`, while the
dictionary entry `"fftlen"` (line 262) is `n_fine_chans // n_coarse_chan`. -/
def mkDataDict (source_name : String)
    (src_raj src_dej tstart tsamp f_start f_stop : ℚ)
    (n_fine_chans n_ints_in_file : ℕ) (coarse_chan_num : ℤ)
    (n_coarse_chan : ℕ) (max_drift : ℚ) : DataDict :=
  let fftlen := n_fine_chans
  let shoulder_size := 0
  let tsteps_valid := n_ints_in_file
  let ts := tsteps n_ints_in_file
  let header := mkHeader source_name src_raj src_dej tstart tsamp f_start f_stop
    n_fine_chans n_ints_in_file max_drift
  { f_start := f_start
    f_stop := f_stop
    tsteps_valid := tsteps_valid
    tsteps := ts
    tdwidth := fftlen + shoulder_size * ts
    fftlen := n_fine_chans / n_coarse_chan
    shoulder_size := shoulder_size
    drift_rate_resolution := 1000000 * |header.DELTAF| / header.obs_length
    coarse_chan := coarse_chan_num
    header := header }

/-- **C1.** For every `n_ints_in_file ≥ 1`, the padded time-step count
`tsteps` is the smallest power of two `≥ n_ints_in_file`: it is a power of
two satisfying `tsteps/2 < n ≤ tsteps`, it is the unique such power of two,
and the edge cases give `tsteps 1 = 1` and `tsteps 2000 = 2048`. -/
theorem tsteps_least_pow_two (n : ℕ) (hn : 1 ≤ n) :
    (∃ k, tsteps n = 2 ^ k) ∧ tsteps n / 2 < n ∧ n ≤ tsteps n ∧
      (∀ m, (∃ j, m = 2 ^ j) → m / 2 < n → n ≤ m → m = tsteps n) ∧
      tsteps 1 = 1 ∧ tsteps 2000 = 2048 := by
  have h1lt2 : (1 : ℕ) < 2 := one_lt_two
  refine ⟨⟨Nat.clog 2 n, rfl⟩, ?_, Nat.le_pow_clog h1lt2 n, ?_, ?_, ?_⟩
  · -- tsteps n / 2 < n
    rcases eq_or_lt_of_le hn with h1 | h2
    · rw [← h1]
      simp [tsteps, Nat.clog_one_right]
    · have hpos : 0 < Nat.clog 2 n := Nat.clog_pos h1lt2 h2
      obtain ⟨c, hc⟩ : ∃ c, Nat.clog 2 n = c + 1 :=
        ⟨Nat.clog 2 n - 1, (Nat.succ_pred_eq_of_pos hpos).symm⟩
      have hdiv : tsteps n / 2 = 2 ^ c := by
        rw [tsteps, hc, pow_succ, Nat.mul_div_cancel _ (by norm_num)]
      have hlt : 2 ^ (Nat.clog 2 n - 1) < n := Nat.pow_pred_clog_lt_self h1lt2 h2
      rw [hdiv]
      simpa [hc] using hlt
  · -- uniqueness
    rintro m ⟨j, rfl⟩ hlt hle
    have hj : Nat.clog 2 n ≤ j := (Nat.le_pow_iff_clog_le h1lt2).mp hle
    cases j with
    | zero =>
      have hne : n = 1 := le_antisymm (by simpa using hle) hn
      rw [hne]
      simp [tsteps, Nat.clog_one_right]
    | succ j' =>
      have h2j : 2 ^ j' < n := by
        have : 2 ^ (j' + 1) / 2 = 2 ^ j' := by
          rw [pow_succ, Nat.mul_div_cancel _ (by norm_num)]
        rwa [this] at hlt
      have hlt' : j' < Nat.clog 2 n := (Nat.pow_lt_iff_lt_clog h1lt2).mp h2j
      have : j' + 1 = Nat.clog 2 n := le_antisymm hlt' hj
      rw [tsteps, this]
  · simp [tsteps, Nat.clog_one_right]
  · have h11 : Nat.clog 2 2000 = 11 := by
      have hub : Nat.clog 2 2000 ≤ 11 :=
        (Nat.le_pow_iff_clog_le h1lt2).mp (by norm_num)
      have hlb : 10 < Nat.clog 2 2000 :=
        (Nat.pow_lt_iff_lt_clog h1lt2).mp (by norm_num)
      omega
    rw [tsteps, h11]
    norm_num

/-- Witness for C1: concrete instantiation at `n = 3` (`tsteps 3 = 4`). -/
theorem tsteps_least_pow_two_witness :
    tsteps 3 / 2 < 3 ∧ 3 ≤ tsteps 3 ∧ tsteps 1 = 1 ∧ tsteps 2000 = 2048 :=
  ⟨(tsteps_least_pow_two 3 (by norm_num)).2.1,
   (tsteps_least_pow_two 3 (by norm_num)).2.2.1,
   (tsteps_least_pow_two 3 (by norm_num)).2.2.2.2.1,
   (tsteps_least_pow_two 3 (by norm_num)).2.2.2.2.2⟩

/-- The failure outcomes of `DopplerFinder.__init__`.  The spec's taxonomy
names them `MissingIndexTableError` (the failed `assert os.path.isfile(...)`
at line 277) and `IndexRangeError` (the numpy `IndexError` raised by
`di_array[...]` at line 285 when the row offset is out of range). -/
inductive InitError where
  | missingIndexTable
  | indexRange
  deriving Repr, DecidableEq

/-- The drift-index table files shipped with turbo_seti: `tables k` is the
integer matrix read from `drift_indexes/drift_indexes_array_{k}.txt` when
that file exists, and `none` when it does not. -/
structure TableEnv where
  tables : ℕ → Option (List (List ℤ))

/-- numpy row-indexing semantics for a 2-D array with `nrows` rows: an
integer index `i` is valid iff `-nrows ≤ i < nrows`, and a negative valid
index wraps around to `nrows + i`.  `none` is returned exactly when numpy
raises `IndexError`. -/
def npRowIndex (nrows : ℕ) (i : ℤ) : Option ℕ :=
  if 0 ≤ i ∧ i < (nrows : ℤ) then some i.toNat
  else if -(nrows : ℤ) ≤ i ∧ i < 0 then some ((nrows : ℤ) + i).toNat
  else none

/-- Embedding of `doppler_finder.py` lines 271-285: look up the drift-index
table keyed by `dia_num = int(np.log2(tsteps))`, fail when the table file
does not exist (the `assert` at line 277), select row
`tsteps_valid - 1 - tsteps/2` with numpy indexing, and keep the first
`tsteps_valid` entries of that row (the column slice `0:tsteps_valid`). -/
def resolveDriftIndexes (env : TableEnv) (ts tsteps_valid : ℕ) :
    Except InitError (List ℤ) :=
  let dia_num := Nat.log 2 ts
  match env.tables dia_num with
  | none => .error .missingIndexTable
  | some di_array =>
    let ts2 : ℕ := ts / 2
    let offset : ℤ := (tsteps_valid : ℤ) - 1 - (ts2 : ℤ)
    match npRowIndex di_array.length offset with
    | none => .error .indexRange
    | some r => .ok ((di_array.getD r []).take tsteps_valid)

/-- Embedding of the computational content of `DopplerFinder.__init__`:
build `data_dict` (lines 212-267) and resolve the drift-index row
(lines 271-285), failing exactly where the source fails. -/
def dopplerFinderInit (env : TableEnv) (source_name : String)
    (src_raj src_dej tstart tsamp f_start f_stop : ℚ)
    (n_fine_chans n_ints_in_file : ℕ) (coarse_chan_num : ℤ)
    (n_coarse_chan : ℕ) (max_drift : ℚ) :
    Except InitError (DataDict × List ℤ) :=
  let dd := mkDataDict source_name src_raj src_dej tstart tsamp f_start f_stop
    n_fine_chans n_ints_in_file coarse_chan_num n_coarse_chan max_drift
  match resolveDriftIndexes env dd.tsteps dd.tsteps_valid with
  | .error e => .error e
  | .ok di => .ok (dd, di)

/-- A concrete table environment used by the concrete instantiations below:
only the table for `k = 2` (`tsteps = 4`) exists, a 2 × 4 integer matrix. -/
def sampleEnv : TableEnv :=
  ⟨fun k => if k = 2 then some [[1, 2, 3, 4], [5, 6, 7, 8]] else none⟩

theorem clog2_four : Nat.clog 2 4 = 2 := by
  have h := Nat.clog_pow 2 2 one_lt_two
  norm_num at h
  exact h

theorem tsteps_four : tsteps 4 = 4 := by
  rw [tsteps, clog2_four]
  norm_num

theorem log2_four : Nat.log 2 4 = 2 := by
  have h := Nat.log_pow one_lt_two 2
  norm_num at h
  exact h

/-- **C7.** When no drift-index table exists for `k = log2(tsteps)`, the
resolution fails with `missingIndexTable` (the source's
`assert os.path.isfile(file_path)`), not a wrapped or truncated result. -/
theorem resolve_missing_table (env : TableEnv) (ts tv : ℕ)
    (h : env.tables (Nat.log 2 ts) = none) :
    resolveDriftIndexes env ts tv = .error .missingIndexTable := by
  simp only [resolveDriftIndexes]
  rw [h]

/-- Witness for C7: `sampleEnv` has no table for `k = 3`, so `tsteps = 8`
fails. -/
theorem resolve_missing_table_witness :
    resolveDriftIndexes sampleEnv 8 5 = .error .missingIndexTable := by
  refine resolve_missing_table sampleEnv 8 5 ?_
  have h : Nat.log 2 8 = 3 := by
    have h8 := Nat.log_pow one_lt_two 3
    norm_num at h8
    exact h8
  rw [h]
  simp [sampleEnv]

/-- **C2.** For a valid pair (`tsteps` as derived, `tsteps/2 < tsteps_valid`)
whose table exists, covers the row offset, and has rows of width
`≥ tsteps_valid` (the shipped tables have width `tsteps`), the resolution
returns exactly the row at offset `tsteps_valid - 1 - tsteps/2` truncated to
its first `tsteps_valid` entries — a vector of length exactly `tsteps_valid`.
Determinism is inherent: `resolveDriftIndexes` is a pure function of
`(tsteps, tsteps_valid)` and the table contents. -/
theorem resolve_selects_row (env : TableEnv) (ts tv : ℕ) (tbl : List (List ℤ))
    (htbl : env.tables (Nat.log 2 ts) = some tbl)
    (hlo : ts / 2 < tv)
    (hoff : tv - 1 - ts / 2 < tbl.length)
    (hrow : ∀ row ∈ tbl, tv ≤ row.length) :
    resolveDriftIndexes env ts tv =
      .ok ((tbl.getD (tv - 1 - ts / 2) []).take tv) ∧
    ∀ v, resolveDriftIndexes env ts tv = .ok v → v.length = tv := by
  have hsel : resolveDriftIndexes env ts tv =
      .ok ((tbl.getD (tv - 1 - ts / 2) []).take tv) := by
    simp only [resolveDriftIndexes]
    rw [htbl]
    have h0 : (0 : ℤ) ≤ (tv : ℤ) - 1 - ((ts / 2 : ℕ) : ℤ) := by omega
    have h1 : (tv : ℤ) - 1 - ((ts / 2 : ℕ) : ℤ) < (tbl.length : ℤ) := by omega
    have h2 : ((tv : ℤ) - 1 - ((ts / 2 : ℕ) : ℤ)).toNat = tv - 1 - ts / 2 := by
      omega
    simp only [npRowIndex, h0, h1, and_self, if_pos, h2]
  refine ⟨hsel, ?_⟩
  intro v hv
  rw [hsel] at hv
  have hv' : (tbl.getD (tv - 1 - ts / 2) []).take tv = v := by
    injection hv
  have hmem : tbl.getD (tv - 1 - ts / 2) [] ∈ tbl := by
    rw [List.getD_eq_getElem tbl [] hoff]
    exact List.getElem_mem hoff
  have hlen : tv ≤ (tbl.getD (tv - 1 - ts / 2) []).length := hrow _ hmem
  rw [← hv', List.length_take]
  omega

/-- Witness for C2: `sampleEnv`, `tsteps = 4`, `tsteps_valid = 3`: offset 0,
first row truncated to 3 entries. -/
theorem resolve_selects_row_witness :
    resolveDriftIndexes sampleEnv 4 3 = .ok [1, 2, 3] := by
  have h := resolve_selects_row sampleEnv 4 3 [[1, 2, 3, 4], [5, 6, 7, 8]]
    (by rw [log2_four]; simp [sampleEnv]) (by norm_num) (by norm_num)
    (by intro row hr; fin_cases hr <;> simp)
  rw [h.1]
  simp

section

variable (source_name : String) (src_raj src_dej tstart tsamp f_start f_stop : ℚ)
variable (n_fine_chans n_ints_in_file : ℕ) (coarse_chan_num : ℤ)
variable (n_coarse_chan : ℕ) (max_drift : ℚ)

theorem mkDataDict_tsteps :
    (mkDataDict source_name src_raj src_dej tstart tsamp f_start f_stop
      n_fine_chans n_ints_in_file coarse_chan_num n_coarse_chan max_drift).tsteps =
      tsteps n_ints_in_file := by
  simp [mkDataDict]

theorem mkDataDict_tsteps_valid :
    (mkDataDict source_name src_raj src_dej tstart tsamp f_start f_stop
      n_fine_chans n_ints_in_file coarse_chan_num n_coarse_chan max_drift).tsteps_valid =
      n_ints_in_file := by
  simp [mkDataDict]

theorem mkDataDict_fftlen :
    (mkDataDict source_name src_raj src_dej tstart tsamp f_start f_stop
      n_fine_chans n_ints_in_file coarse_chan_num n_coarse_chan max_drift).fftlen =
      n_fine_chans / n_coarse_chan := by
  simp [mkDataDict]

theorem mkDataDict_shoulder_size :
    (mkDataDict source_name src_raj src_dej tstart tsamp f_start f_stop
      n_fine_chans n_ints_in_file coarse_chan_num n_coarse_chan max_drift).shoulder_size =
      0 := by
  simp [mkDataDict]

theorem mkDataDict_tdwidth :
    (mkDataDict source_name src_raj src_dej tstart tsamp f_start f_stop
      n_fine_chans n_ints_in_file coarse_chan_num n_coarse_chan max_drift).tdwidth =
      n_fine_chans := by
  simp [mkDataDict]

theorem mkDataDict_header :
    (mkDataDict source_name src_raj src_dej tstart tsamp f_start f_stop
      n_fine_chans n_ints_in_file coarse_chan_num n_coarse_chan max_drift).header =
      mkHeader source_name src_raj src_dej tstart tsamp f_start f_stop
        n_fine_chans n_ints_in_file max_drift := by
  simp [mkDataDict]

theorem mkDataDict_drr :
    (mkDataDict source_name src_raj src_dej tstart tsamp f_start f_stop
      n_fine_chans n_ints_in_file coarse_chan_num n_coarse_chan max_drift).drift_rate_resolution =
      1000000 * |(f_stop - f_start) / (n_fine_chans : ℚ)| /
        ((n_ints_in_file : ℚ) * tsamp) := by
  simp [mkDataDict, mkHeader]

end

/-- **C6 is false as stated**: at `tsteps = 4`, `tsteps_valid = 1` the row
offset `tsteps_valid - 1 - tsteps/2 = -2` is negative, yet the resolution
does not fail — numpy wraps the negative index to row
`table_rows + offset = 0` and returns a vector. -/
theorem resolve_negative_offset_counterexample :
    (1 : ℤ) - 1 - ((4 / 2 : ℕ) : ℤ) < 0 ∧
      resolveDriftIndexes sampleEnv 4 1 = .ok [1] := by
  constructor
  · decide
  · simp only [resolveDriftIndexes, log2_four]
    rfl

/-- **C6 (amended).** With the table for `k = log2(tsteps)` loaded, the
resolution fails with `indexRange` exactly when the row offset
`tsteps_valid - 1 - tsteps/2` falls outside numpy's valid range
`[-table_rows, table_rows)`: an offset at or above the row count fails as
the claim says, but a negative offset in `[-table_rows, -1]` does not fail —
numpy silently wraps it to the end-relative row `table_rows + offset`. -/
theorem resolve_offset_range (env : TableEnv) (ts tv : ℕ) (tbl : List (List ℤ))
    (htbl : env.tables (Nat.log 2 ts) = some tbl) :
    (((tbl.length : ℤ) ≤ (tv : ℤ) - 1 - ((ts / 2 : ℕ) : ℤ) ∨
        (tv : ℤ) - 1 - ((ts / 2 : ℕ) : ℤ) < -(tbl.length : ℤ)) →
      resolveDriftIndexes env ts tv = .error .indexRange) ∧
    ((-(tbl.length : ℤ) ≤ (tv : ℤ) - 1 - ((ts / 2 : ℕ) : ℤ) ∧
        (tv : ℤ) - 1 - ((ts / 2 : ℕ) : ℤ) < 0) →
      resolveDriftIndexes env ts tv =
        .ok ((tbl.getD ((tbl.length : ℤ) +
          ((tv : ℤ) - 1 - ((ts / 2 : ℕ) : ℤ))).toNat []).take tv)) := by
  constructor
  · intro hout
    simp only [resolveDriftIndexes, htbl]
    have hidx : npRowIndex tbl.length ((tv : ℤ) - 1 - ((ts / 2 : ℕ) : ℤ)) = none := by
      unfold npRowIndex
      rw [if_neg (by omega), if_neg (by omega)]
    rw [hidx]
  · rintro ⟨h1, h2⟩
    simp only [resolveDriftIndexes, htbl]
    have hidx : npRowIndex tbl.length ((tv : ℤ) - 1 - ((ts / 2 : ℕ) : ℤ)) =
        some (((tbl.length : ℤ) + ((tv : ℤ) - 1 - ((ts / 2 : ℕ) : ℤ))).toNat) := by
      unfold npRowIndex
      rw [if_neg (by omega), if_pos ⟨h1, h2⟩]
    rw [hidx]

/-- Witness for the amended C6: at `tsteps = 4` an offset of `5 ≥ 2` rows
fails, while the negative offset `-2` wraps to row `0`. -/
theorem resolve_offset_range_witness :
    resolveDriftIndexes sampleEnv 4 8 = .error .indexRange ∧
      resolveDriftIndexes sampleEnv 4 1 = .ok [1] := by
  have htbl : sampleEnv.tables (Nat.log 2 4) = some [[1, 2, 3, 4], [5, 6, 7, 8]] := by
    rw [log2_four]
    rfl
  have h8 := (resolve_offset_range sampleEnv 4 8 [[1, 2, 3, 4], [5, 6, 7, 8]] htbl).1
  have h1 := (resolve_offset_range sampleEnv 4 1 [[1, 2, 3, 4], [5, 6, 7, 8]] htbl).2
  refine ⟨h8 (by norm_num), ?_⟩
  rw [h1 (by norm_num)]
  norm_num

/-- Projection of a successful `__init__` outcome to the stored `fftlen`. -/
def initFftlen : Except InitError (DataDict × List ℤ) → Option ℕ
  | .ok (dd, _) => some dd.fftlen
  | .error _ => none

theorem init_five_two_eval :
    dopplerFinderInit sampleEnv "src" 0 0 0 1 0 1 5 4 0 2 4 =
      .ok (mkDataDict "src" 0 0 0 1 0 1 5 4 0 2 4, [5, 6, 7, 8]) := by
  have hres : resolveDriftIndexes sampleEnv 4 4 = .ok [5, 6, 7, 8] := by
    simp only [resolveDriftIndexes, log2_four]
    rfl
  simp only [dopplerFinderInit, mkDataDict_tsteps, mkDataDict_tsteps_valid, tsteps_four]
  rw [hres]

/-- **C3 is false as stated**: with `n_fine_chans = 5` not divisible by
`n_coarse_chan = 2`, `__init__` does not fail with any configuration error —
construction completes and stores the silently truncated
`fftlen = 5 // 2 = 2`. -/
theorem fftlen_silent_truncation_counterexample :
    (5 : ℕ) % 2 ≠ 0 ∧
      (dopplerFinderInit sampleEnv "src" 0 0 0 1 0 1 5 4 0 2 4).isOk = true ∧
      initFftlen (dopplerFinderInit sampleEnv "src" 0 0 0 1 0 1 5 4 0 2 4) =
        some 2 := by
  refine ⟨by norm_num, ?_, ?_⟩
  · rw [init_five_two_eval]
    rfl
  · rw [init_five_two_eval]
    simp only [initFftlen, mkDataDict_fftlen]

/-- **C3 (amended).** `fftlen` is stored as the floor division
`n_fine_chans // n_coarse_chan`; when the division is not exact the value is
silently truncated: `__init__` performs no divisibility check and raises no
error for it — whenever the drift-index resolution succeeds, construction
succeeds, evenly divisible or not. -/
theorem fftlen_floor_division_silent (env : TableEnv) (source_name : String)
    (src_raj src_dej tstart tsamp f_start f_stop : ℚ)
    (n_fine_chans n_ints_in_file : ℕ) (coarse_chan_num : ℤ)
    (n_coarse_chan : ℕ) (max_drift : ℚ) (di : List ℤ)
    (hres : resolveDriftIndexes env (tsteps n_ints_in_file) n_ints_in_file =
      .ok di) :
    dopplerFinderInit env source_name src_raj src_dej tstart tsamp f_start f_stop
        n_fine_chans n_ints_in_file coarse_chan_num n_coarse_chan max_drift =
      .ok (mkDataDict source_name src_raj src_dej tstart tsamp f_start f_stop
        n_fine_chans n_ints_in_file coarse_chan_num n_coarse_chan max_drift, di) ∧
    (mkDataDict source_name src_raj src_dej tstart tsamp f_start f_stop
        n_fine_chans n_ints_in_file coarse_chan_num n_coarse_chan max_drift).fftlen =
      n_fine_chans / n_coarse_chan := by
  constructor
  · simp only [dopplerFinderInit, mkDataDict_tsteps, mkDataDict_tsteps_valid]
    rw [hres]
  · exact mkDataDict_fftlen source_name src_raj src_dej tstart tsamp f_start f_stop
      n_fine_chans n_ints_in_file coarse_chan_num n_coarse_chan max_drift

/-- Witness for the amended C3: the non-divisible pair `(5, 2)` still
constructs, with `fftlen = 2`. -/
theorem fftlen_floor_division_silent_witness :
    dopplerFinderInit sampleEnv "src" 0 0 0 1 0 1 5 4 0 2 4 =
      .ok (mkDataDict "src" 0 0 0 1 0 1 5 4 0 2 4, [5, 6, 7, 8]) ∧
    (mkDataDict "src" 0 0 0 1 0 1 5 4 0 2 4).fftlen = 5 / 2 := by
  refine fftlen_floor_division_silent sampleEnv "src" 0 0 0 1 0 1 5 4 0 2 4
    [5, 6, 7, 8] ?_
  rw [tsteps_four]
  simp only [resolveDriftIndexes, log2_four]
  rfl

/-- **C4 is false as stated**: at `n_fine_chans = 8`, `n_coarse_chan = 2`
the stored `tdwidth` is `8` — line 261 uses the local `fftlen = n_fine_chans`
of line 212 — while the claim's `fftlen + shoulder_size * tsteps` with the
per-coarse-channel `fftlen = n_fine_chans / n_coarse_chan = 4` gives `4`. -/
theorem tdwidth_counterexample :
    (mkDataDict "src" 0 0 0 1 0 1 8 4 0 2 4).tdwidth ≠
      (mkDataDict "src" 0 0 0 1 0 1 8 4 0 2 4).fftlen +
        (mkDataDict "src" 0 0 0 1 0 1 8 4 0 2 4).shoulder_size *
          (mkDataDict "src" 0 0 0 1 0 1 8 4 0 2 4).tsteps := by
  simp only [mkDataDict_tdwidth, mkDataDict_fftlen, mkDataDict_shoulder_size,
    Nat.zero_mul, Nat.add_zero]
  norm_num

/-- **C4 (amended).** `tdwidth = fftlen + shoulder_size * tsteps` holds for
the local `fftlen` of line 212 — the full `n_fine_chans` — not for the
stored per-coarse-channel `fftlen = n_fine_chans / n_coarse_chan`; with the
fixed `shoulder_size = 0` this makes `tdwidth = n_fine_chans`, and it
coincides with the claim's reading exactly when `n_coarse_chan = 1`. -/
theorem tdwidth_formula (source_name : String)
    (src_raj src_dej tstart tsamp f_start f_stop : ℚ)
    (n_fine_chans n_ints_in_file : ℕ) (coarse_chan_num : ℤ)
    (n_coarse_chan : ℕ) (max_drift : ℚ) :
    (mkDataDict source_name src_raj src_dej tstart tsamp f_start f_stop
        n_fine_chans n_ints_in_file coarse_chan_num n_coarse_chan max_drift).tdwidth =
      n_fine_chans +
        (mkDataDict source_name src_raj src_dej tstart tsamp f_start f_stop
          n_fine_chans n_ints_in_file coarse_chan_num n_coarse_chan max_drift).shoulder_size *
          (mkDataDict source_name src_raj src_dej tstart tsamp f_start f_stop
            n_fine_chans n_ints_in_file coarse_chan_num n_coarse_chan max_drift).tsteps ∧
    (mkDataDict source_name src_raj src_dej tstart tsamp f_start f_stop
        n_fine_chans n_ints_in_file coarse_chan_num n_coarse_chan max_drift).shoulder_size = 0 ∧
    (n_coarse_chan = 1 →
      (mkDataDict source_name src_raj src_dej tstart tsamp f_start f_stop
          n_fine_chans n_ints_in_file coarse_chan_num n_coarse_chan max_drift).tdwidth =
        (mkDataDict source_name src_raj src_dej tstart tsamp f_start f_stop
          n_fine_chans n_ints_in_file coarse_chan_num n_coarse_chan max_drift).fftlen +
          (mkDataDict source_name src_raj src_dej tstart tsamp f_start f_stop
            n_fine_chans n_ints_in_file coarse_chan_num n_coarse_chan max_drift).shoulder_size *
            (mkDataDict source_name src_raj src_dej tstart tsamp f_start f_stop
              n_fine_chans n_ints_in_file coarse_chan_num n_coarse_chan max_drift).tsteps) := by
  refine ⟨?_, ?_, ?_⟩
  · simp only [mkDataDict_tdwidth, mkDataDict_shoulder_size, Nat.zero_mul, Nat.add_zero]
  · exact mkDataDict_shoulder_size source_name src_raj src_dej tstart tsamp f_start f_stop
      n_fine_chans n_ints_in_file coarse_chan_num n_coarse_chan max_drift
  · intro h1
    subst h1
    simp only [mkDataDict_tdwidth, mkDataDict_fftlen, mkDataDict_shoulder_size,
      Nat.zero_mul, Nat.add_zero, Nat.div_one]

/-- Witness for the amended C4: with `n_coarse_chan = 1` the claim's reading
of the formula holds at a concrete geometry. -/
theorem tdwidth_formula_witness :
    (mkDataDict "src" 0 0 0 1 0 1 8 4 0 1 4).tdwidth =
      (mkDataDict "src" 0 0 0 1 0 1 8 4 0 1 4).fftlen +
        (mkDataDict "src" 0 0 0 1 0 1 8 4 0 1 4).shoulder_size *
          (mkDataDict "src" 0 0 0 1 0 1 8 4 0 1 4).tsteps :=
  (tdwidth_formula "src" 0 0 0 1 0 1 8 4 0 1 4).2.2 rfl

/-- **C5.** The built header and geometry satisfy
`DELTAF = (f_stop - f_start) / n_fine_chans`,
`FCNTR = (f_stop + f_start) / 2`, `obs_length = n_ints_in_file * tsamp`,
`drift_rate_resolution = 1e6 * |DELTAF| / obs_length`, and the resolution is
strictly positive whenever `DELTAF ≠ 0` (for valid inputs
`tsamp > 0`, `n_ints_in_file ≥ 1`). -/
theorem header_formulas (source_name : String)
    (src_raj src_dej tstart tsamp f_start f_stop : ℚ)
    (n_fine_chans n_ints_in_file : ℕ) (coarse_chan_num : ℤ)
    (n_coarse_chan : ℕ) (max_drift : ℚ) :
    (mkDataDict source_name src_raj src_dej tstart tsamp f_start f_stop
        n_fine_chans n_ints_in_file coarse_chan_num n_coarse_chan max_drift).header.DELTAF =
      (f_stop - f_start) / (n_fine_chans : ℚ) ∧
    (mkDataDict source_name src_raj src_dej tstart tsamp f_start f_stop
        n_fine_chans n_ints_in_file coarse_chan_num n_coarse_chan max_drift).header.FCNTR =
      (f_stop + f_start) / 2 ∧
    (mkDataDict source_name src_raj src_dej tstart tsamp f_start f_stop
        n_fine_chans n_ints_in_file coarse_chan_num n_coarse_chan max_drift).header.obs_length =
      (n_ints_in_file : ℚ) * tsamp ∧
    (mkDataDict source_name src_raj src_dej tstart tsamp f_start f_stop
        n_fine_chans n_ints_in_file coarse_chan_num n_coarse_chan
        max_drift).drift_rate_resolution =
      1000000 * |(f_stop - f_start) / (n_fine_chans : ℚ)| /
        ((n_ints_in_file : ℚ) * tsamp) ∧
    (0 < tsamp → 1 ≤ n_ints_in_file → (f_stop - f_start) / (n_fine_chans : ℚ) ≠ 0 →
      0 < (mkDataDict source_name src_raj src_dej tstart tsamp f_start f_stop
        n_fine_chans n_ints_in_file coarse_chan_num n_coarse_chan
        max_drift).drift_rate_resolution) := by
  refine ⟨?_, ?_, ?_, ?_, ?_⟩
  · simp [mkDataDict_header, mkHeader]
  · simp [mkDataDict_header, mkHeader]
  · simp [mkDataDict_header, mkHeader]
  · exact mkDataDict_drr source_name src_raj src_dej tstart tsamp f_start f_stop
      n_fine_chans n_ints_in_file coarse_chan_num n_coarse_chan max_drift
  · intro htsamp hints hdf
    rw [mkDataDict_drr]
    have hnum : 0 < 1000000 * |(f_stop - f_start) / (n_fine_chans : ℚ)| := by
      have habs : 0 < |(f_stop - f_start) / (n_fine_chans : ℚ)| := abs_pos.mpr hdf
      positivity
    have hden : 0 < (n_ints_in_file : ℚ) * tsamp := by
      have h1 : (1 : ℚ) ≤ (n_ints_in_file : ℚ) := by
        exact_mod_cast hints
      nlinarith
    exact div_pos hnum hden

/-- Witness for C5: concrete geometry with `f_start = 0`, `f_stop = 1`,
`n_fine_chans = 4`, `n_ints_in_file = 2`, `tsamp = 1`. -/
theorem header_formulas_witness :
    (0 : ℚ) < 1 ∧ 1 ≤ 2 ∧ ((1 : ℚ) - 0) / ((4 : ℕ) : ℚ) ≠ 0 ∧
      0 < (mkDataDict "src" 0 0 0 1 0 1 4 2 0 1 4).drift_rate_resolution :=
  ⟨by norm_num, by norm_num, by norm_num,
    (header_formulas "src" 0 0 0 1 0 1 4 2 0 1 4).2.2.2.2
      (by norm_num) (by norm_num) (by norm_num)⟩

/-- A value held in `DataLoader.spectra`: either the plain Python list
placeholder installed by `__init__` (line 73) or a numpy 2-D spectra matrix
installed by a load operation. -/
inductive SpectraVal where
  | pylist : List ℤ → SpectraVal
  | pyarray : List (List ℚ) → SpectraVal
  deriving Repr, DecidableEq

/-- Total number of elements of the held value (Python `len` and `np.size`
agree on both shapes involved). -/
def SpectraVal.size : SpectraVal → ℕ
  | .pylist l => l.length
  | .pyarray m => (m.map List.length).sum

/-- The `DataLoader` object state (`doppler_finder.py` lines 61-92). -/
structure DataLoader where
  data_obj : DataDict
  drift_indices : List ℤ
  spectra : SpectraVal
  deriving Repr, DecidableEq

/-- `DataLoader.__init__` (lines 70-74): store the config object and the
drift-index vector, and set `spectra` to the placeholder list `[0, 0]`. -/
def DataLoader.init (data_obj : DataDict) (drift_indices : List ℤ) : DataLoader :=
  { data_obj := data_obj
    drift_indices := drift_indices
    spectra := .pylist [0, 0] }

/-- `DataLoader.load` (lines 77-80): store a streamed matrix verbatim. -/
def DataLoader.load (dl : DataLoader) (spectra : List (List ℚ)) : DataLoader :=
  { dl with spectra := .pyarray spectra }

/-- `DataLoader.load_file` (lines 83-87): decode the synthetic-data file at
the given path — `stg.Frame(path).data`, an external decoder modelled by the
function `decode` — and store the decoded matrix. -/
def DataLoader.load_file (decode : String → List (List ℚ)) (dl : DataLoader)
    (spectra_file_path : String) : DataLoader :=
  { dl with spectra := .pyarray (decode spectra_file_path) }

/-- `DataLoader.get` (lines 90-92): the snapshot tuple
`(data_obj, spectra, drift_indices)` taken by `load_the_data()`. -/
def DataLoader.get (dl : DataLoader) : DataDict × SpectraVal × List ℤ :=
  (dl.data_obj, dl.spectra, dl.drift_indices)

/-- One load operation: a streamed matrix (`load`) or a synthetic-data file
path (`load_file`). -/
inductive LoadOp where
  | stream : List (List ℚ) → LoadOp
  | synth : String → LoadOp

/-- Dispatch one load operation to the corresponding `DataLoader` method. -/
def applyLoad (decode : String → List (List ℚ)) (dl : DataLoader) :
    LoadOp → DataLoader
  | .stream m => dl.load m
  | .synth p => dl.load_file decode p

/-- Apply a sequence of load operations in order. -/
def applyLoads (decode : String → List (List ℚ)) (dl : DataLoader)
    (ops : List LoadOp) : DataLoader :=
  ops.foldl (applyLoad decode) dl

/-- The matrix a load operation delivers. -/
def LoadOp.matrix (decode : String → List (List ℚ)) : LoadOp → List (List ℚ)
  | .stream m => m
  | .synth p => decode p

theorem applyLoad_data_obj (decode : String → List (List ℚ)) (dl : DataLoader)
    (op : LoadOp) : (applyLoad decode dl op).data_obj = dl.data_obj := by
  cases op <;> rfl

theorem applyLoad_drift_indices (decode : String → List (List ℚ))
    (dl : DataLoader) (op : LoadOp) :
    (applyLoad decode dl op).drift_indices = dl.drift_indices := by
  cases op <;> rfl

theorem applyLoad_spectra (decode : String → List (List ℚ)) (dl : DataLoader)
    (op : LoadOp) :
    (applyLoad decode dl op).spectra = .pyarray (op.matrix decode) := by
  cases op <;> rfl

theorem applyLoads_data_obj (decode : String → List (List ℚ)) (dl : DataLoader)
    (ops : List LoadOp) : (applyLoads decode dl ops).data_obj = dl.data_obj := by
  induction ops generalizing dl with
  | nil => rfl
  | cons op rest ih =>
    simp only [applyLoads, List.foldl_cons] at ih ⊢
    rw [ih (applyLoad decode dl op), applyLoad_data_obj]

theorem applyLoads_drift_indices (decode : String → List (List ℚ))
    (dl : DataLoader) (ops : List LoadOp) :
    (applyLoads decode dl ops).drift_indices = dl.drift_indices := by
  induction ops generalizing dl with
  | nil => rfl
  | cons op rest ih =>
    simp only [applyLoads, List.foldl_cons] at ih ⊢
    rw [ih (applyLoad decode dl op), applyLoad_drift_indices]

theorem snapshot_after_concat (decode : String → List (List ℚ))
    (dl : DataLoader) (ops : List LoadOp) (op : LoadOp) :
    (applyLoads decode dl (ops ++ [op])).get =
      (dl.data_obj, .pyarray (op.matrix decode), dl.drift_indices) := by
  have hsplit : applyLoads decode dl (ops ++ [op]) =
      applyLoad decode (applyLoads decode dl ops) op := by
    simp [applyLoads, List.foldl_append]
  rw [DataLoader.get, hsplit, applyLoad_data_obj, applyLoad_drift_indices,
    applyLoad_spectra, applyLoads_data_obj, applyLoads_drift_indices]

/-- **C8.** After any nonempty sequence of load operations (stream and/or
synthetic, in any order), the snapshot is exactly the matrix delivered by
the most recent load, stored verbatim, together with the unchanged config
object and drift-index vector — no data from an earlier load survives. -/
theorem snapshot_last_load (decode : String → List (List ℚ)) (dl : DataLoader)
    (ops : List LoadOp) (hne : ops ≠ []) :
    (applyLoads decode dl ops).get =
      (dl.data_obj, .pyarray ((ops.getLast hne).matrix decode),
        dl.drift_indices) := by
  conv_lhs => rw [← List.dropLast_append_getLast hne]
  exact snapshot_after_concat decode dl ops.dropLast (ops.getLast hne)

/-- Witness for C8: stream-then-synthetic, the snapshot shows the decoded
synthetic matrix and the original config and indices. -/
theorem snapshot_last_load_witness :
    (applyLoads (fun _ => [[7]])
        (DataLoader.init (mkDataDict "src" 0 0 0 1 0 1 4 2 0 1 4) [1])
        [.stream [[2, 3]], .synth "f"]).get =
      (mkDataDict "src" 0 0 0 1 0 1 4 2 0 1 4, .pyarray [[7]], [1]) := by
  have h := snapshot_last_load (fun _ => [[7]])
    (DataLoader.init (mkDataDict "src" 0 0 0 1 0 1 4 2 0 1 4) [1])
    [.stream [[2, 3]], .synth "f"] (by simp)
  rw [h]
  rfl

/-- **C10 is false as stated**: a freshly constructed `DataLoader` does not
hold a zero-size spectra placeholder — `__init__` sets `spectra = [0, 0]`,
a two-element list. -/
theorem fresh_loader_placeholder_counterexample :
    (DataLoader.init (mkDataDict "src" 0 0 0 1 0 1 4 2 0 1 4) [1]).spectra.size
      ≠ 0 := by
  rw [DataLoader.init]
  simp [SpectraVal.size]

/-- **C10 (amended).** A freshly constructed loader is in the Unloaded
state in the sense that no matrix has been stored: its spectra slot holds
the fixed placeholder list `[0, 0]` — of size 2, not 0 — which is replaced
by the first load. -/
theorem fresh_loader_placeholder (data_obj : DataDict) (drift_indices : List ℤ) :
    (DataLoader.init data_obj drift_indices).spectra = .pylist [0, 0] ∧
      (DataLoader.init data_obj drift_indices).spectra.size = 2 := by
  exact ⟨rfl, rfl⟩

/-- Python `str.split(sep)` on character lists: the chunks between
occurrences of `sep` (always a nonempty list of chunks). -/
def splitChar (sep : Char) : List Char → List (List Char)
  | [] => [[]]
  | c :: cs =>
    let r := splitChar sep cs
    if c = sep then [] :: r
    else (c :: r.headI) :: r.tail

/-- Fuel-bounded worker for `replaceChars`.  The fuel, initialised to the
input length, bounds the number of scanning steps (each step consumes at
least one character), so it only serves to make the recursion structural
and is never exhausted. -/
def replaceCharsGo (old new : List Char) : ℕ → List Char → List Char
  | _, [] => []
  | 0, s => s
  | fuel + 1, c :: cs =>
    if old ≠ [] ∧ (c :: cs).take old.length = old then
      new ++ replaceCharsGo old new fuel ((c :: cs).drop old.length)
    else c :: replaceCharsGo old new fuel cs

/-- Python `str.replace(old, new)` on character lists: replace each
non-overlapping occurrence of `old`, scanning left to right. -/
def replaceChars (old new s : List Char) : List Char :=
  replaceCharsGo old new s.length s

/-- Python `str.rstrip('/')` on character lists: drop trailing slashes. -/
def rstripChar (ch : Char) (s : List Char) : List Char :=
  (s.reverse.dropWhile (fun c => c = ch)).reverse

/-- Line 292:
`wfilename = self.filename.split('/')[-1].replace('.h5', '').replace('.fil', '')`. -/
def wfilename (filename : List Char) : List Char :=
  replaceChars ['.', 'f', 'i', 'l'] []
    (replaceChars ['.', 'h', '5'] []
      (((splitChar '/' filename).getLast?).getD []))

/-- Line 293: `path_log = '{}/{}.log'.format(self.out_dir.rstrip('/'), wfilename)`. -/
def path_log (filename out_dir : List Char) : List Char :=
  rstripChar '/' out_dir ++ '/' :: (wfilename filename ++ ['.', 'l', 'o', 'g'])

/-- Line 294: `path_dat = '{}/{}.dat'.format(self.out_dir.rstrip('/'), wfilename)`. -/
def path_dat (filename out_dir : List Char) : List Char :=
  rstripChar '/' out_dir ++ '/' :: (wfilename filename ++ ['.', 'd', 'a', 't'])

/-- `if os.path.exists(p): os.remove(p)` over a file system modelled as the
list of existing paths (lines 295-298). -/
def removeIfExists (fs : List (List Char)) (p : List Char) : List (List Char) :=
  if p ∈ fs then fs.filter (fun q => q ≠ p) else fs

/-- `open(p, "w")` creates the file when absent (truncating otherwise). -/
def createFile (fs : List (List Char)) (p : List Char) : List (List Char) :=
  if p ∈ fs then fs else p :: fs

/-- Embedding of the artifact handling at the start of
`DopplerFinder._find_ET_common` (lines 291-300): derive the output paths,
remove any existing `.log` and `.dat` artifacts there, then create the
fresh `.log` file for the preamble.  The stored `append_output` flag
(line 249) is passed in to record that this code never consults it. -/
def findETprelude (filename out_dir : List Char) (append_output : Bool)
    (fs : List (List Char)) : List (List Char) :=
  let pl := path_log filename out_dir
  let pd := path_dat filename out_dir
  let fs1 := removeIfExists fs pl
  let fs2 := removeIfExists fs1 pd
  createFile fs2 pl

theorem path_log_ne_path_dat (filename out_dir : List Char) :
    path_log filename out_dir ≠ path_dat filename out_dir := by
  intro h
  unfold path_log path_dat at h
  have h1 := List.append_cancel_left h
  have h2 : wfilename filename ++ ['.', 'l', 'o', 'g'] =
      wfilename filename ++ ['.', 'd', 'a', 't'] := by
    injection h1
  have h3 := List.append_cancel_left h2
  exact absurd h3 (by decide)

theorem not_mem_removeIfExists_self (fs : List (List Char)) (p : List Char) :
    p ∉ removeIfExists fs p := by
  unfold removeIfExists
  by_cases h : p ∈ fs
  · rw [if_pos h]
    intro hmem
    have h2 := (List.mem_filter.mp hmem).2
    simp at h2
  · rw [if_neg h]
    exact h

/-- **C9 is false as stated**: with append mode requested
(`append_output = True`), a pre-existing `.dat` artifact at the derived
output path is still removed — the removal is not skipped. -/
theorem prelude_append_counterexample :
    path_dat ['a'] ['d'] ∈ [path_dat ['a'] ['d']] ∧
      path_dat ['a'] ['d'] ∉
        findETprelude ['a'] ['d'] true [path_dat ['a'] ['d']] := by
  constructor
  · decide
  · decide

/-- **C9 (amended).** The artifact removal before a search is unconditional:
the prelude behaves identically whether or not append mode is requested —
for every append flag, any pre-existing `.dat` artifact at the derived path
is removed (and absent afterwards) and the `.log` artifact is freshly
recreated. -/
theorem prelude_removes_unconditionally (filename out_dir : List Char)
    (append_output : Bool) (fs : List (List Char)) :
    findETprelude filename out_dir append_output fs =
      findETprelude filename out_dir false fs ∧
    path_dat filename out_dir ∉
      findETprelude filename out_dir append_output fs ∧
    path_log filename out_dir ∈
      findETprelude filename out_dir append_output fs := by
  refine ⟨rfl, ?_, ?_⟩
  · have hnotin := not_mem_removeIfExists_self
      (removeIfExists fs (path_log filename out_dir)) (path_dat filename out_dir)
    simp only [findETprelude]
    unfold createFile
    by_cases hc : path_log filename out_dir ∈
        removeIfExists (removeIfExists fs (path_log filename out_dir))
          (path_dat filename out_dir)
    · rw [if_pos hc]
      exact hnotin
    · rw [if_neg hc]
      intro hmem
      rcases List.mem_cons.mp hmem with heq | hmem2
      · exact path_log_ne_path_dat filename out_dir heq.symm
      · exact hnotin hmem2
  · simp only [findETprelude]
    unfold createFile
    by_cases hc : path_log filename out_dir ∈
        removeIfExists (removeIfExists fs (path_log filename out_dir))
          (path_dat filename out_dir)
    · rw [if_pos hc]
      exact hc
    · rw [if_neg hc]
      exact List.mem_cons_self _ _

end TurbosetiStream
